import Mathlib

/-!
Verification of the capability-validation and resource-registry core of the
orion_vk library, as a shallow embedding of the C sources under src/.

Conventions of the embedding:
* C strings are Lean `String`s; a nullable pointer is an `Option`.
* A dynamic array together with its length variable is a Lean `List` while the
  two stay in lock-step; where the source lets them diverge (allocation
  failure) the model carries the length separately.
* The Vulkan implementation is external: it is modelled by a `VulkanEnv`
  record holding the layer/extension enumerations that
  `vkEnumerateInstanceLayerProperties` / `vkEnumerateInstanceExtensionProperties`
  would report.  The availability-check functions of the library search those
  enumerations exactly as the C code does.
* Diagnostics are modelled observationally: each function returns, alongside
  its result, the list of warnings it emitted and the error kits it passed to
  `_ori_ThrowError`.  The severity-gated channel itself is modelled
  separately for the diagnostic-channel claims.
-/

namespace OrionVK

/-- A capability (layer or extension) name: a UTF-8 C string. -/
abbrev Name := String

/-- Severity bits of `oriSeverityBit_t` from src/include/orion.h (lines 81-88). -/
def ORION_DEBUG_SEVERITY_FATAL_BIT : Nat := 0x01

/-- Severity bit, src/include/orion.h line 84. -/
def ORION_DEBUG_SEVERITY_ERROR_BIT : Nat := 0x02

/-- Severity bit, src/include/orion.h line 85. -/
def ORION_DEBUG_SEVERITY_WARNING_BIT : Nat := 0x04

/-- Severity bit, src/include/orion.h line 86. -/
def ORION_DEBUG_SEVERITY_NOTIF_BIT : Nat := 0x08

/-- Severity bit, src/include/orion.h line 87. -/
def ORION_DEBUG_SEVERITY_VERBOSE_BIT : Nat := 0x10

/-- Modelled from the spec: the `ORION_ERROR_SEVERITY_*_BIT` enumeration used
by the sources under src/src/vulkan and src/src/lib comes from a revision of
orion.h that is not in the snapshot (only the newest public header is).  Per
the spec (section 4.1) severities are distinct ordered bits
VERBOSE < NOTIFICATION < WARNING < ERROR < FATAL; the numbering mirrors
`oriSeverityBit_t` of src/include/orion.h.  Only distinctness of the bits
matters to any claim. -/
def ORION_ERROR_SEVERITY_FATAL_BIT : Nat := 0x01

/-- Modelled from the spec: see `ORION_ERROR_SEVERITY_FATAL_BIT`. -/
def ORION_ERROR_SEVERITY_ERROR_BIT : Nat := 0x02

/-- Modelled from the spec: see `ORION_ERROR_SEVERITY_FATAL_BIT`. -/
def ORION_ERROR_SEVERITY_WARNING_BIT : Nat := 0x04

/-- Modelled from the spec: see `ORION_ERROR_SEVERITY_FATAL_BIT`. -/
def ORION_ERROR_SEVERITY_NOTIF_BIT : Nat := 0x08

/-- Modelled from the spec: see `ORION_ERROR_SEVERITY_FATAL_BIT`. -/
def ORION_ERROR_SEVERITY_VERBOSE_BIT : Nat := 0x10

/-- A diagnostic record: the four arguments every error kit carries and that
`_ori_ThrowError` forwards to the error callback (src/src/headers/orion_codes.h,
src/src/lib/error.c lines 49-68). -/
structure Diagnostic where
  name : Name
  code : Nat
  message : String
  severity : Nat
deriving DecidableEq, Repr

/-- `ORERR_VULKAN_RETURN_ERROR` from src/src/headers/orion_codes.h lines 41-45. -/
def ORERR_VULKAN_RETURN_ERROR : Diagnostic :=
  ⟨"ERR_VULKAN_RETURN_ERROR", 0x01,
   "A Vulkan function returned a VkResult other than VK_SUCCESS.",
   ORION_ERROR_SEVERITY_ERROR_BIT⟩

/-- `ORERR_MEMORY_ERROR` from src/src/headers/orion_codes.h lines 47-51. -/
def ORERR_MEMORY_ERROR : Diagnostic :=
  ⟨"ERR_MEMORY_ERROR", 0x02,
   "A function encountered a memory-related error.",
   ORION_ERROR_SEVERITY_ERROR_BIT⟩

/-- Modelled from the spec: the `ORERR_NULL_POINTER` error kit is used
throughout src/src/vulkan (for example vk_extension.c line 64) but its
defining macro lives in a header revision missing from the snapshot; the
spec (section 7) classifies it as a NULL_ARGUMENT error surfaced as an
ERROR-severity diagnostic.  Name and description follow the newest
revision's analogous `ORIERR_NULL_POINTER` entry
(src/src/lib/debug.c lines 55-59). -/
def ORERR_NULL_POINTER : Diagnostic :=
  ⟨"ERR_NULL_POINTER", 0x01,
   "function recieved NULL pointer instead of required arg",
   ORION_ERROR_SEVERITY_ERROR_BIT⟩

/-- Return statuses used by the src/src/vulkan and src/src/lib revisions
(`ORION_RETURN_STATUS_*`); the defining enum header for those revisions is
not in the snapshot, but the set of constructors is exactly the set of
enumerators those sources use. -/
inductive oriReturnStatus where
  | ok
  | errorNotFound
  | errorNullPointer
  | memoryError
  | errorVulkanError
  | errorInvalidEnum
deriving DecidableEq, Repr

/-- The external Vulkan implementation (spec section 6, "Consumes"): the
enumerations that `vkEnumerateInstanceLayerProperties` and
`vkEnumerateInstanceExtensionProperties` report.  `availableInstanceExtensions
none` is the core-implementation extension list; `availableInstanceExtensions
(some layer)` is the list provided by that layer. -/
structure VulkanEnv where
  availableLayers : List Name
  availableInstanceExtensions : Option Name → List Name

/-- `oriCheckLayerAvailability` from src/src/vulkan/vk_extension.c lines
199-220: enumerate the available layers and search them by string equality. -/
def oriCheckLayerAvailability (env : VulkanEnv) (layer : Name) : Bool :=
  env.availableLayers.any (fun l => l = layer)

/-- `oriCheckInstanceExtensionAvailability` from src/src/vulkan/vk_extension.c
lines 275-296: enumerate the extensions of the given provider (NULL = core
implementation) and search them by string equality. -/
def oriCheckInstanceExtensionAvailability (env : VulkanEnv) (extension : Name)
    (layer : Option Name) : Bool :=
  (env.availableInstanceExtensions layer).any (fun e => e = extension)

/-- The `instanceCreateInfo` sub-struct of `oriState`
(src/src/structs.h lines 99-112): the capability accumulator.  The
`enabledLayerCount` / `enabledExtCount` fields are the list lengths. -/
structure InstanceCreateInfo where
  enabledLayers : List Name
  enabledExtensions : List Name
deriving DecidableEq, Repr

/-- `_ori_RemoveFromDArray` from src/src/headers/orion_helpers.h lines 87-99.
The guard in the source is `index <= len` (not `<`).  For `index < len` the
shift loop yields `eraseIdx`.  For `index = len` the source writes a zero one
slot past the end (outside the observable region), runs no shift iteration,
and still decrements `len`: the observable array (its first `len` entries)
loses its last element, hence `dropLast`.  (For `len = 0`, `index = 0` the
source's shift loop bound `len - 1` underflows and the execution is
undefined; the model's value `[]` for that case is never relied upon.) -/
def _ori_RemoveFromDArray {α : Type} (l : List α) (index : Nat) : List α :=
  if index ≤ l.length then
    if index = l.length then l.dropLast else l.eraseIdx index
  else
    l

/-- Result of `_ori_AppendOntoDArray`: the array pointer (`none` = NULL), the
value of the length variable, whether the `"Memory error"` printf fired, and
the kits passed to `_ori_ThrowError` (the macro never calls it). -/
structure AppendResult (α : Type) where
  data : Option (List α)
  len : Nat
  printfFired : Bool
  thrown : List Diagnostic
deriving DecidableEq, Repr

/-- `_ori_AppendOntoDArray` from src/src/headers/orion_helpers.h lines 58-81,
with the outcome of the `realloc` made explicit.  The macro copies the old
contents aside, increments `len`, reallocates, zeroes the new block, copies
the old contents back and writes `value` into the last slot, so on success
the observable array is `l ++ [value]` with length `l.length + 1`.  On
allocation failure `realloc` returns NULL: the array pointer is overwritten
with NULL while `len` stays incremented, the subsequent `memset` on the NULL
pointer is undefined behaviour (the model records the state at the
`printf` check), and the only failure report is a `printf` - no kit is
passed to `_ori_ThrowError`. -/
def _ori_AppendOntoDArray {α : Type} (allocSucceeds : Bool) (l : List α)
    (value : α) : AppendResult α :=
  if allocSucceeds then
    ⟨some (l ++ [value]), l.length + 1, false, []⟩
  else
    ⟨none, l.length + 1, true, []⟩

/-- `__RemoveArrayDuplicates` from src/src/init.c lines 37-49 (the same
algorithm as `_ori_RemoveDArrayDuplicates` in
src/src/headers/orion_helpers.h lines 104-119): scan left to right; whenever
`array[i] = array[i+1]`, shift the later elements left by one and re-examine
position `i` (`count--; i--`).  Only adjacent duplicates are ever compared.
(For `count = 0` the loop bound `count - 1` underflows in the source and the
execution is undefined; the model's `[]` is never relied upon.) -/
def __RemoveArrayDuplicates {α : Type} [DecidableEq α] : List α → List α
  | [] => []
  | [a] => [a]
  | a :: b :: t =>
    if a = b then __RemoveArrayDuplicates (a :: t)
    else a :: __RemoveArrayDuplicates (b :: t)
termination_by l => l.length

/-- An opaque native handle (a `VkInstance` pointer address). -/
abbrev Handle := Nat

/-- The destroy phase of `oriFreeState` from src/src/init.c lines 307-324:
first `__RemoveArrayDuplicates` runs on the raw handle-array storage, then
`vkDestroyInstance` is invoked once per remaining entry, in order.  The value
is the sequence of handles passed to the native destroy call. -/
def oriFreeState (instances : List Handle) : List Handle :=
  __RemoveArrayDuplicates instances

/-- Result of a capability-request function: the return status, the updated
accumulator, the warnings emitted through `_ori_Warning` (recorded by the
capability name they cite) and the error kits passed to `_ori_ThrowError`. -/
structure FlagResult where
  status : oriReturnStatus
  state : InstanceCreateInfo
  warnings : List Name
  thrown : List Diagnostic
deriving DecidableEq, Repr

/-- `oriFlagLayerEnabled` from src/src/vulkan/vk_extension.c lines 62-79,
body after the NULL-state guard (the guard is `oriFlagLayerEnabledNullable`);
`__oridebug` build, allocation assumed to succeed.  The availability of the
layer is checked eagerly; an unavailable layer appends nothing, warns and
returns NOT_FOUND, an available one is appended by `_ori_AppendOntoDArray`. -/
def oriFlagLayerEnabled (env : VulkanEnv) (s : InstanceCreateInfo)
    (layer : Name) : FlagResult :=
  if oriCheckLayerAvailability env layer = false then
    ⟨.errorNotFound, s, [layer], []⟩
  else
    ⟨.ok, { s with enabledLayers := s.enabledLayers ++ [layer] }, [], []⟩

/-- `oriFlagInstanceExtensionEnabled` from src/src/vulkan/vk_extension.c lines
95-109, body after the NULL-state guard; allocation assumed to succeed.  No
availability check is performed (the function takes no `VulkanEnv`): the
extension is appended unconditionally and OK is returned. -/
def oriFlagInstanceExtensionEnabled (s : InstanceCreateInfo)
    (extension : Name) : FlagResult :=
  ⟨.ok, { s with enabledExtensions := s.enabledExtensions ++ [extension] },
   [], []⟩

/-- The availability test the prune loop applies to one extension
(src/src/vulkan/vk_extension.c lines 145-159): provided by the core
implementation (provider NULL), or else by the first requested layer, in
request order, that provides it (`List.any` returns at the first hit, as the
`break` does). -/
def extResolvable (env : VulkanEnv) (layers : List Name) (ext : Name) : Bool :=
  oriCheckInstanceExtensionAvailability env ext none ||
    layers.any (fun l => oriCheckInstanceExtensionAvailability env ext (some l))

/-- The loop of `oriPruneInstanceExtensions`
(src/src/vulkan/vk_extension.c lines 138-180), literally: `i` is the loop
index, `exts` the live extension array, `r` the removed-anything flag and
`warns` the warnings emitted so far.  An unresolvable extension is removed
in place with `_ori_RemoveFromDArray(..., i)` and the `for` loop then still
increments `i`. -/
def prunePass (env : VulkanEnv) (layers : List Name) (i : Nat)
    (exts : List Name) (r : Bool) (warns : List Name) :
    List Name × Bool × List Name :=
  if h : i < exts.length then
    let cur := exts.get ⟨i, h⟩
    if extResolvable env layers cur then
      prunePass env layers (i + 1) exts r warns
    else
      prunePass env layers (i + 1) (_ori_RemoveFromDArray exts i) true
        (warns ++ [cur])
  else
    (exts, r, warns)
termination_by exts.length - i
decreasing_by
  · omega
  · have hlen : (_ori_RemoveFromDArray exts i).length = exts.length - 1 := by
      simp only [_ori_RemoveFromDArray]
      rw [if_pos (Nat.le_of_lt h), if_neg (Nat.ne_of_lt h)]
      simp [List.length_eraseIdx, h]
    omega

/-- Result of `oriPruneInstanceExtensions`: the updated accumulator, the
boolean the function returns (true iff anything was removed) and the warnings
emitted. -/
structure PruneResult where
  state : InstanceCreateInfo
  removedAny : Bool
  warnings : List Name
deriving DecidableEq, Repr

/-- `oriPruneInstanceExtensions` from src/src/vulkan/vk_extension.c lines
132-181, body after the NULL-state guard (the guard is
`oriPruneInstanceExtensionsNullable`); `__oridebug` build. -/
def oriPruneInstanceExtensions (env : VulkanEnv) (s : InstanceCreateInfo) :
    PruneResult :=
  let p := prunePass env s.enabledLayers 0 s.enabledExtensions false []
  ⟨{ s with enabledExtensions := p.1 }, p.2.1, p.2.2⟩

/-- `oriFlagLayerEnabled` with the NULL-state guard of
src/src/vulkan/vk_extension.c lines 63-66: a NULL state throws
`ORERR_NULL_POINTER` and returns the NULL_POINTER status without touching
any accumulator. -/
def oriFlagLayerEnabledNullable (env : VulkanEnv)
    (s : Option InstanceCreateInfo) (layer : Name) :
    oriReturnStatus × Option InstanceCreateInfo × List Name × List Diagnostic :=
  match s with
  | none => (.errorNullPointer, none, [], [ORERR_NULL_POINTER])
  | some st =>
    let r := oriFlagLayerEnabled env st layer
    (r.status, some r.state, r.warnings, r.thrown)

/-- `oriFlagInstanceExtensionEnabled` with the NULL-state guard of
src/src/vulkan/vk_extension.c lines 96-99. -/
def oriFlagInstanceExtensionEnabledNullable (s : Option InstanceCreateInfo)
    (extension : Name) :
    oriReturnStatus × Option InstanceCreateInfo × List Name × List Diagnostic :=
  match s with
  | none => (.errorNullPointer, none, [], [ORERR_NULL_POINTER])
  | some st =>
    let r := oriFlagInstanceExtensionEnabled st extension
    (r.status, some r.state, r.warnings, r.thrown)

/-- `oriPruneInstanceExtensions` with the NULL-state guard of
src/src/vulkan/vk_extension.c lines 133-136: a NULL state throws
`ORERR_NULL_POINTER` and returns `false`. -/
def oriPruneInstanceExtensionsNullable (env : VulkanEnv)
    (s : Option InstanceCreateInfo) :
    Bool × Option InstanceCreateInfo × List Name × List Diagnostic :=
  match s with
  | none => (false, none, [], [ORERR_NULL_POINTER])
  | some st =>
    let r := oriPruneInstanceExtensions env st
    (r.removedAny, some r.state, r.warnings, [])

/-- Structural reformulation of `prunePass`, used to reason about it.  The
loop's state splits as processed prefix + todo suffix; keeping an element
consumes one todo entry, while removing an element in place shifts the next
todo entry into the current index, which the `i++` of the `for` loop then
steps over, so that entry is kept without ever being examined. -/
def pruneGo (env : VulkanEnv) (layers : List Name) :
    List Name → List Name × Bool × List Name
  | [] => ([], false, [])
  | x :: rest =>
    if extResolvable env layers x then
      let p := pruneGo env layers rest
      (x :: p.1, p.2.1, p.2.2)
    else
      match rest with
      | [] => ([], true, [x])
      | y :: t =>
        let p := pruneGo env layers t
        (y :: p.1, true, x :: p.2.2)

/-- Observable outcome of one diagnostic-emission helper: whether the message
string was formatted (the `snprintf` into the local buffer ran) and the calls
delivered to the sink (the active error callback). -/
structure Emission where
  formatted : Bool
  sinkCalls : List Diagnostic
deriving DecidableEq, Repr

/-- `_ori_ThrowError` from src/src/lib/error.c lines 49-68 (the same code is
src/src/error.c lines 228-247): if the enabled-severity mask ANDed with the
message's severity differs from the severity, return without invoking the
sink; otherwise deliver the four arguments to the error callback (a NULL
callback is first replaced by the default one, which does not change whether
a call is made).  The value is the list of sink calls performed. -/
def _ori_ThrowError (mask : Nat) (name : Name) (code : Nat)
    (message : String) (severity : Nat) : List Diagnostic :=
  if mask &&& severity = severity then [⟨name, code, message, severity⟩]
  else []

/-- `_ori_Warning` from src/src/headers/orion_helpers.h lines 147-154: when
the severity mask is entirely empty nothing is formatted; otherwise the
message is formatted and handed to `_ori_ThrowError` at WARNING severity
(which filters it against the mask again). -/
def _ori_Warning (mask : Nat) (message : String) : Emission :=
  if mask ≠ 0 then
    ⟨true, _ori_ThrowError mask "" 0 message ORION_ERROR_SEVERITY_WARNING_BIT⟩
  else
    ⟨false, []⟩

/-- `_oriErrorCode_t` from src/src/headers/orion_errors.h lines 59-70. -/
inductive _oriErrorCode_t where
  | ORIERR_NULL_POINTER
  | ORIERR_INSTANCE_CREATION_FAIL
  | ORIERR_NOT_INIT
  | ORIERR_INVALID_OBJECT
  | ORIERR_VULKAN_QUERY_FAIL
  | ORIERR_DEVICE_CREATION_FAIL
  | ORIFERR_MEMORY_ERROR
deriving DecidableEq, Repr

/-- Numeric values of `_oriErrorCode_t`, src/src/headers/orion_errors.h. -/
def _oriErrorCodeVal : _oriErrorCode_t → Nat
  | .ORIERR_NULL_POINTER => 0x01
  | .ORIERR_INSTANCE_CREATION_FAIL => 0x02
  | .ORIERR_NOT_INIT => 0x03
  | .ORIERR_INVALID_OBJECT => 0x04
  | .ORIERR_VULKAN_QUERY_FAIL => 0x05
  | .ORIERR_DEVICE_CREATION_FAIL => 0x06
  | .ORIFERR_MEMORY_ERROR => 0xD0

/-- `_oriParseError` from src/src/lib/debug.c lines 50-92: the (name,
description) pair of each error code. -/
def _oriParseError : _oriErrorCode_t → Name × String
  | .ORIERR_NULL_POINTER =>
    ("ERR_NULL_POINTER", "function recieved NULL pointer instead of required arg")
  | .ORIERR_INSTANCE_CREATION_FAIL =>
    ("ERR_INSTANCE_CREATION_FAIL", "Vulkan failed to create instance")
  | .ORIERR_NOT_INIT =>
    ("ERR_NOT_INIT", "call oriInit() once before this function")
  | .ORIERR_INVALID_OBJECT =>
    ("ERR_INVALID_OBJECT", "invalid Vulkan object or was not created with Orion")
  | .ORIERR_VULKAN_QUERY_FAIL =>
    ("ERR_VULKAN_QUERY_FAIL", "Vulkan query function failed")
  | .ORIERR_DEVICE_CREATION_FAIL =>
    ("ERR_DEVICE_CREATION_FAIL", "Vulkan failed to create logical device")
  | .ORIFERR_MEMORY_ERROR =>
    ("FERR_MEMORY_ERROR", "native memory error")

/-- `_oriLog` from src/src/lib/debug.c lines 140-143: the severity check of
`DBGCB_VERIFY_SEV` runs before the formatting of `DBGCB_CALL_NOTERR`, so a
filtered call neither formats nor reaches the sink. -/
def _oriLog (mask : Nat) (message : String) : Emission :=
  if mask &&& ORION_DEBUG_SEVERITY_VERBOSE_BIT = ORION_DEBUG_SEVERITY_VERBOSE_BIT then
    ⟨true, [⟨"", 0, message, ORION_DEBUG_SEVERITY_VERBOSE_BIT⟩]⟩
  else
    ⟨false, []⟩

/-- `_oriNotification` from src/src/lib/debug.c lines 145-148. -/
def _oriNotification (mask : Nat) (message : String) : Emission :=
  if mask &&& ORION_DEBUG_SEVERITY_NOTIF_BIT = ORION_DEBUG_SEVERITY_NOTIF_BIT then
    ⟨true, [⟨"", 0, message, ORION_DEBUG_SEVERITY_NOTIF_BIT⟩]⟩
  else
    ⟨false, []⟩

/-- `_oriWarning` from src/src/lib/debug.c lines 150-153. -/
def _oriWarning (mask : Nat) (message : String) : Emission :=
  if mask &&& ORION_DEBUG_SEVERITY_WARNING_BIT = ORION_DEBUG_SEVERITY_WARNING_BIT then
    ⟨true, [⟨"", 0, message, ORION_DEBUG_SEVERITY_WARNING_BIT⟩]⟩
  else
    ⟨false, []⟩

/-- The message `DBGCB_CALL_ERR` formats: the code's description, with the
extra information appended in brackets when present
(src/src/lib/debug.c lines 118-128). -/
def dbgcbErrMessage (id : _oriErrorCode_t) (extra : Option String) : String :=
  match extra with
  | some e => (_oriParseError id).2 ++ " (" ++ e ++ ")"
  | none => (_oriParseError id).2

/-- `_oriError` from src/src/lib/debug.c lines 155-158.  The severity mask is
not consulted at all ("errors will always be shown regardless of debug
message configuration"): the message is always formatted and always
delivered to the sink at ERROR severity. -/
def _oriError (mask : Nat) (id : _oriErrorCode_t) (extra : Option String) :
    Emission :=
  ⟨true, [⟨(_oriParseError id).1, _oriErrorCodeVal id,
           dbgcbErrMessage id extra, ORION_DEBUG_SEVERITY_ERROR_BIT⟩]⟩

/-- `_oriFatalError` from src/src/lib/debug.c lines 160-168: like
`_oriError` but at FATAL severity; after delivery the process is terminated
with exit(EXIT_FAILURE) (the termination itself is outside the model). -/
def _oriFatalError (mask : Nat) (id : _oriErrorCode_t)
    (extra : Option String) : Emission :=
  ⟨true, [⟨(_oriParseError id).1, _oriErrorCodeVal id,
           dbgcbErrMessage id extra, ORION_DEBUG_SEVERITY_FATAL_BIT⟩]⟩

/-- `VkDebugUtilsMessageSeverityFlagBitsEXT` values (Vulkan API, external). -/
def VK_DEBUG_UTILS_MESSAGE_SEVERITY_VERBOSE_BIT_EXT : Nat := 0x00000001

/-- Vulkan severity flag (external). -/
def VK_DEBUG_UTILS_MESSAGE_SEVERITY_INFO_BIT_EXT : Nat := 0x00000010

/-- Vulkan severity flag (external). -/
def VK_DEBUG_UTILS_MESSAGE_SEVERITY_WARNING_BIT_EXT : Nat := 0x00000100

/-- Vulkan severity flag (external). -/
def VK_DEBUG_UTILS_MESSAGE_SEVERITY_ERROR_BIT_EXT : Nat := 0x00001000

/-- `VkDebugUtilsMessageTypeFlagBitsEXT` values (Vulkan API, external). -/
def VK_DEBUG_UTILS_MESSAGE_TYPE_GENERAL_BIT_EXT : Nat := 0x00000001

/-- Vulkan message-type flag (external). -/
def VK_DEBUG_UTILS_MESSAGE_TYPE_VALIDATION_BIT_EXT : Nat := 0x00000002

/-- Vulkan message-type flag (external). -/
def VK_DEBUG_UTILS_MESSAGE_TYPE_PERFORMANCE_BIT_EXT : Nat := 0x00000004

/-- `VkDebugUtilsMessengerCallbackDataEXT` as the relay reads it: the
message text plus the queue-label, command-buffer-label and object lists
(each entry's name being a nullable string); the counts the source reads are
the list lengths. -/
structure VkDebugUtilsMessengerCallbackData where
  pMessage : String
  queueLabels : List (Option Name)
  cmdBufLabels : List (Option Name)
  objectNames : List (Option Name)

/-- The severity-to-string switch of the relay
(src/src/lib/callback.c lines 101-116): ERROR is also the default case. -/
def relaySeverityString (severity : Nat) : String :=
  if severity = VK_DEBUG_UTILS_MESSAGE_SEVERITY_VERBOSE_BIT_EXT then "VERBOSE"
  else if severity = VK_DEBUG_UTILS_MESSAGE_SEVERITY_INFO_BIT_EXT then "NOTIFICATION"
  else if severity = VK_DEBUG_UTILS_MESSAGE_SEVERITY_WARNING_BIT_EXT then "WARNING"
  else "ERROR"

/-- The type-to-string switch of the relay
(src/src/lib/callback.c lines 142-154): GENERAL is also the default case. -/
def relayTypeString (typ : Nat) : String :=
  if typ = VK_DEBUG_UTILS_MESSAGE_TYPE_VALIDATION_BIT_EXT then "VALIDATION"
  else if typ = VK_DEBUG_UTILS_MESSAGE_TYPE_PERFORMANCE_BIT_EXT then "PERFORMANCE"
  else "GENERAL"

/-- One appended info section of the long relay message
(src/src/lib/callback.c lines 166-211): the header and item count, then one
label line per non-NULL name. -/
def relayLabelSection (header : String) (labels : List (Option Name)) :
    String :=
  labels.foldl
    (fun acc l =>
      match l with
      | some n => acc ++ "\n\t\tlabel: " ++ n
      | none => acc)
    (header ++ toString labels.length)

/-- Outcome of the debug-messenger relay: the single call it makes to the
library error callback, and the `VkBool32` it returns (`false` =
`VK_FALSE`). -/
structure RelayResult where
  call : Diagnostic
  returnValue : Bool

/-- `_ori_VulkanDebugMessengerCallback` from src/src/lib/callback.c lines
91-221 (the same code is src/src/error.c lines 90-220).  VERBOSE and INFO
messages take the short-format early return; all others build the long
message; both paths deliver to the error callback under the name
VULKAN_DEBUG_MESSENGER with code 0x03 at ERROR severity and return
VK_FALSE. -/
def _ori_VulkanDebugMessengerCallback (severity typ : Nat)
    (callbackdata : VkDebugUtilsMessengerCallbackData) : RelayResult :=
  let severityStr := relaySeverityString severity
  if (severity &&& VK_DEBUG_UTILS_MESSAGE_SEVERITY_VERBOSE_BIT_EXT =
        VK_DEBUG_UTILS_MESSAGE_SEVERITY_VERBOSE_BIT_EXT) ||
     (severity &&& VK_DEBUG_UTILS_MESSAGE_SEVERITY_INFO_BIT_EXT =
        VK_DEBUG_UTILS_MESSAGE_SEVERITY_INFO_BIT_EXT) then
    ⟨⟨"VULKAN_DEBUG_MESSENGER", 0x03,
      severityStr ++ " >> " ++ callbackdata.pMessage,
      ORION_ERROR_SEVERITY_ERROR_BIT⟩, false⟩
  else
    let typeStr := relayTypeString typ
    let base := "vulkan reported debug message, details are described below:\n\tseverity "
      ++ severityStr ++ ", type " ++ typeStr
      ++ "\n\t\tMESSAGE BEGIN\n\t\t\t" ++ callbackdata.pMessage
      ++ "\n\t\tMESSAGE END"
    let m1 := relayLabelSection
      (base ++ "\n\tamount of active items in current VkQueue: ")
      callbackdata.queueLabels
    let m2 := relayLabelSection
      (m1 ++ "\n\tamount of active items in current VkCommandBuffer: ")
      callbackdata.cmdBufLabels
    let m3 := relayLabelSection
      (m2 ++ "\n\tamount of related objects: ")
      callbackdata.objectNames
    ⟨⟨"VULKAN_DEBUG_MESSENGER", 0x03, m3,
      ORION_ERROR_SEVERITY_ERROR_BIT⟩, false⟩

/-- Result of the src/src/lib/extension.c revision of `oriFlagLayerEnabled`,
whose append is inlined realloc code: the status, the layer-array pointer
(`none` = NULL), the value of the separate count variable, the warnings and
the kits passed to `_ori_ThrowError`. -/
structure LayerAppendResult where
  status : oriReturnStatus
  enabledLayers : Option (List Name)
  enabledLayerCount : Nat
  warnings : List Name
  thrown : List Diagnostic
deriving DecidableEq, Repr

/-- `oriFlagLayerEnabled` from src/src/lib/extension.c lines 62-83, with the
outcome of the `realloc` made explicit.  The source increments
`enabledLayerCount` before reallocating; when the realloc returns NULL it
throws `ORERR_MEMORY_ERROR` and returns the MEMORY_ERROR status, with the
count already incremented and the array pointer overwritten with NULL. -/
def oriFlagLayerEnabledRealloc (env : VulkanEnv) (allocSucceeds : Bool)
    (layers : List Name) (layer : Name) : LayerAppendResult :=
  if oriCheckLayerAvailability env layer = false then
    ⟨.errorNotFound, some layers, layers.length, [layer], []⟩
  else if allocSucceeds then
    ⟨.ok, some (layers ++ [layer]), layers.length + 1, [], []⟩
  else
    ⟨.memoryError, none, layers.length + 1, [], [ORERR_MEMORY_ERROR]⟩

theorem RemoveFromDArray_of_lt {α : Type} (l : List α) (i : Nat)
    (h : i < l.length) : _ori_RemoveFromDArray l i = l.eraseIdx i := by
  simp only [_ori_RemoveFromDArray]
  rw [if_pos (Nat.le_of_lt h), if_neg (Nat.ne_of_lt h)]

theorem pruneGo_nil (env : VulkanEnv) (L : List Name) :
    pruneGo env L [] = ([], false, []) := by
  rw [pruneGo.eq_def]

theorem pruneGo_cons_keep (env : VulkanEnv) (L : List Name) (x : Name)
    (rest : List Name) (h : extResolvable env L x = true) :
    pruneGo env L (x :: rest) =
      (x :: (pruneGo env L rest).1, (pruneGo env L rest).2.1,
       (pruneGo env L rest).2.2) := by
  rw [pruneGo.eq_def]
  simp only [h, if_true]

theorem pruneGo_drop_last (env : VulkanEnv) (L : List Name) (x : Name)
    (h : extResolvable env L x = false) :
    pruneGo env L [x] = ([], true, [x]) := by
  rw [pruneGo.eq_def]
  simp only [h, Bool.false_eq_true, if_false]

theorem pruneGo_drop_skip (env : VulkanEnv) (L : List Name) (x y : Name)
    (t : List Name) (h : extResolvable env L x = false) :
    pruneGo env L (x :: y :: t) =
      (y :: (pruneGo env L t).1, true, x :: (pruneGo env L t).2.2) := by
  rw [pruneGo.eq_def]
  simp only [h, Bool.false_eq_true, if_false]

theorem get_append_left_len {α : Type} (P : List α) (x : α) (rest : List α)
    (h : P.length < (P ++ x :: rest).length) :
    (P ++ x :: rest).get ⟨P.length, h⟩ = x := by
  induction P with
  | nil => rfl
  | cons a P ih => exact ih (by simp)

theorem eraseIdx_append_len {α : Type} (P : List α) (x : α) (rest : List α) :
    (P ++ x :: rest).eraseIdx P.length = P ++ rest := by
  induction P with
  | nil => rfl
  | cons a P ih => simp [List.eraseIdx, ih]

theorem RemoveFromDArray_append_len {α : Type} (P : List α) (x : α)
    (rest : List α) :
    _ori_RemoveFromDArray (P ++ x :: rest) P.length = P ++ rest := by
  rw [RemoveFromDArray_of_lt (P ++ x :: rest) P.length (by simp)]
  exact eraseIdx_append_len P x rest

theorem prunePass_eq_pruneGo (env : VulkanEnv) (L : List Name)
    (P todo : List Name) (r : Bool) (w : List Name) :
    prunePass env L P.length (P ++ todo) r w =
      (P ++ (pruneGo env L todo).1, r || (pruneGo env L todo).2.1,
       w ++ (pruneGo env L todo).2.2) := by
  match todo with
  | [] =>
    rw [prunePass]
    simp [pruneGo]
  | x :: rest =>
    rw [prunePass]
    have hlt : P.length < (P ++ x :: rest).length := by simp
    rw [dif_pos hlt]
    rw [get_append_left_len P x rest hlt]
    by_cases hres : extResolvable env L x
    · rw [if_pos hres]
      have hP : P.length + 1 = (P ++ [x]).length := by simp
      have hL : P ++ x :: rest = (P ++ [x]) ++ rest := by simp
      rw [hP, hL, prunePass_eq_pruneGo env L (P ++ [x]) rest r w]
      rw [pruneGo_cons_keep env L x rest hres]
      simp
    · rw [if_neg hres]
      rw [RemoveFromDArray_append_len P x rest]
      match rest with
      | [] =>
        rw [prunePass]
        simp [pruneGo, hres]
      | y :: t =>
        have hP : P.length + 1 = (P ++ [y]).length := by simp
        have hL : P ++ y :: t = (P ++ [y]) ++ t := by simp
        rw [hP, hL, prunePass_eq_pruneGo env L (P ++ [y]) t true (w ++ [x])]
        simp [pruneGo, hres]
termination_by todo.length

/-- The prune loop started at index 0 with empty accumulators is `pruneGo`. -/
theorem prunePass_closed (env : VulkanEnv) (L exts : List Name) :
    prunePass env L 0 exts false [] = pruneGo env L exts := by
  have h := prunePass_eq_pruneGo env L [] exts false []
  simpa using h

theorem oriPrune_eq_pruneGo (env : VulkanEnv) (s : InstanceCreateInfo) :
    oriPruneInstanceExtensions env s =
      ⟨{ s with enabledExtensions := (pruneGo env s.enabledLayers s.enabledExtensions).1 },
       (pruneGo env s.enabledLayers s.enabledExtensions).2.1,
       (pruneGo env s.enabledLayers s.enabledExtensions).2.2⟩ := by
  unfold oriPruneInstanceExtensions
  rw [prunePass_closed]

/-- If a pass of the prune loop removed nothing, it also changed nothing and
warned about nothing. -/
theorem pruneGo_removed_false (env : VulkanEnv) (L : List Name) :
    ∀ todo : List Name, (pruneGo env L todo).2.1 = false →
      pruneGo env L todo = (todo, false, []) := by
  intro todo h
  induction todo with
  | nil => rfl
  | cons x rest ih =>
    by_cases hres : extResolvable env L x
    · rw [pruneGo_cons_keep env L x rest hres] at h ⊢
      simp only at h
      rw [ih h]
    · simp only [Bool.not_eq_true] at hres
      exfalso
      match rest with
      | [] =>
        rw [pruneGo_drop_last env L x hres] at h
        simp at h
      | y :: t =>
        rw [pruneGo_drop_skip env L x y t hres] at h
        simp at h

theorem RemoveArrayDuplicates_nil {α : Type} [DecidableEq α] :
    __RemoveArrayDuplicates ([] : List α) = [] := by
  rw [__RemoveArrayDuplicates.eq_def]

theorem RemoveArrayDuplicates_single {α : Type} [DecidableEq α] (a : α) :
    __RemoveArrayDuplicates [a] = [a] := by
  rw [__RemoveArrayDuplicates.eq_def]

theorem RemoveArrayDuplicates_cons {α : Type} [DecidableEq α] (a b : α)
    (t : List α) :
    __RemoveArrayDuplicates (a :: b :: t) =
      if a = b then __RemoveArrayDuplicates (a :: t)
      else a :: __RemoveArrayDuplicates (b :: t) := by
  rw [__RemoveArrayDuplicates.eq_def]

/-- The adjacent-deduplication pass keeps the head of a nonempty list. -/
theorem RemoveArrayDuplicates_head {α : Type} [DecidableEq α] :
    ∀ (t : List α) (a : α),
      ∃ t2, __RemoveArrayDuplicates (a :: t) = a :: t2 := by
  intro t
  induction t with
  | nil =>
    intro a
    exact ⟨[], RemoveArrayDuplicates_single a⟩
  | cons b t ih =>
    intro a
    rw [RemoveArrayDuplicates_cons]
    by_cases hab : a = b
    · rw [if_pos hab]
      exact ih a
    · rw [if_neg hab]
      exact ⟨__RemoveArrayDuplicates (b :: t), rfl⟩

/-- After the adjacent-deduplication pass, no two consecutive entries are
equal. -/
theorem RemoveArrayDuplicates_chain {α : Type} [DecidableEq α] :
    ∀ l : List α,
      List.Chain' (fun x y => x ≠ y) (__RemoveArrayDuplicates l) := by
  intro l
  match l with
  | [] =>
    rw [RemoveArrayDuplicates_nil]
    exact List.chain'_nil
  | [a] =>
    rw [RemoveArrayDuplicates_single]
    exact List.chain'_singleton a
  | a :: b :: t =>
    rw [RemoveArrayDuplicates_cons]
    by_cases hab : a = b
    · rw [if_pos hab, hab]
      exact RemoveArrayDuplicates_chain (b :: t)
    · rw [if_neg hab]
      obtain ⟨t2, ht2⟩ := RemoveArrayDuplicates_head t b
      rw [ht2]
      have hc := RemoveArrayDuplicates_chain (b :: t)
      rw [ht2] at hc
      exact List.Chain'.cons hab hc
termination_by l => l.length
decreasing_by
  all_goals simp

/-- A handle registered `n + 1` times in adjacent positions survives
deduplication exactly once. -/
theorem RemoveArrayDuplicates_replicate {α : Type} [DecidableEq α] (a : α) :
    ∀ n : Nat, __RemoveArrayDuplicates (List.replicate (n + 1) a) = [a] := by
  intro n
  induction n with
  | zero => exact RemoveArrayDuplicates_single a
  | succ m ih =>
    have h : List.replicate (m + 2) a = a :: a :: List.replicate m a := by
      simp [List.replicate]
    rw [h, RemoveArrayDuplicates_cons, if_pos rfl]
    have h2 : a :: List.replicate m a = List.replicate (m + 1) a := by
      simp [List.replicate]
    rw [h2, ih]

/-- C1: evaluation of the extension-filter pass at a failing input.  With no
requested layers and the two requested extensions "VK_EXT_a", "VK_EXT_b"
both unavailable (the implementation exposes no extensions), the claim
requires both to be removed, each with a WARNING.  The code removes only
"VK_EXT_a": its in-place removal shifts "VK_EXT_b" into the current index
and the loop increment skips it, so "VK_EXT_b" stays in the accumulator and
only one WARNING is emitted. -/
theorem C1_prune_skips_extension_after_removal :
    oriPruneInstanceExtensions ⟨[], fun _ => []⟩ ⟨[], ["VK_EXT_a", "VK_EXT_b"]⟩ =
      ⟨⟨[], ["VK_EXT_b"]⟩, true, ["VK_EXT_a"]⟩ := by
  rw [oriPrune_eq_pruneGo]
  rw [pruneGo_drop_skip ⟨[], fun _ => []⟩ [] "VK_EXT_a" "VK_EXT_b" [] rfl]
  rw [pruneGo_nil]

/-- C2 counterexample: a registry whose handle storage is [1, 2, 1] has a
non-adjacent duplicate; the adjacent-only deduplication pass of
`oriFreeState` leaves it unchanged and the destroy phase invokes the native
destroy on handle 1 twice, contradicting the claim that every registry with
duplicate entries (adjacent or not) has each distinct handle destroyed
exactly once. -/
theorem C2_nonadjacent_duplicate_destroyed_twice :
    oriFreeState [1, 2, 1] = [1, 2, 1] ∧
    (oriFreeState [1, 2, 1]).count 1 = 2 := by
  have h : oriFreeState [1, 2, 1] = [1, 2, 1] := by
    unfold oriFreeState
    rw [RemoveArrayDuplicates_cons, if_neg (by decide)]
    rw [RemoveArrayDuplicates_cons, if_neg (by decide)]
    rw [RemoveArrayDuplicates_single]
  exact ⟨h, by rw [h]; decide⟩

/-- C2 amended: before the destroy phase `oriFreeState` deduplicates the raw
handle storage of ADJACENT duplicates only: the resulting destroy sequence
never destroys the same handle twice in a row, and a handle all of whose
duplicate entries are adjacent (here: registered n+1 times consecutively) is
destroyed exactly once; non-adjacent duplicates are still destroyed once per
occurrence. -/
theorem C2_teardown_dedups_adjacent_duplicates (l : List Handle) (a : Handle)
    (n : Nat) :
    List.Chain' (fun x y => x ≠ y) (oriFreeState l) ∧
    oriFreeState (List.replicate (n + 1) a) = [a] ∧
    (oriFreeState (List.replicate (n + 1) a)).count a = 1 := by
  refine ⟨RemoveArrayDuplicates_chain l, RemoveArrayDuplicates_replicate a n, ?_⟩
  show (__RemoveArrayDuplicates (List.replicate (n + 1) a)).count a = 1
  rw [RemoveArrayDuplicates_replicate a n]
  simp

/-- C3: when the Availability Oracle reports the layer unavailable,
`oriFlagLayerEnabled` appends nothing (the requested-layer list, hence its
length, is unchanged), emits one WARNING naming the layer, and returns the
NOT_FOUND status. -/
theorem C3_requestLayer_unavailable_appends_nothing (env : VulkanEnv)
    (s : InstanceCreateInfo) (layer : Name)
    (h : oriCheckLayerAvailability env layer = false) :
    oriFlagLayerEnabled env s layer = ⟨.errorNotFound, s, [layer], []⟩ ∧
    (oriFlagLayerEnabled env s layer).state.enabledLayers.length =
      s.enabledLayers.length := by
  constructor
  · simp [oriFlagLayerEnabled, h]
  · simp [oriFlagLayerEnabled, h]

/-- Witness for C3 at the concrete input of the spec's test property:
requesting "does-not-exist" against an implementation exposing no layers. -/
theorem C3_witness :
    oriCheckLayerAvailability ⟨[], fun _ => []⟩ "does-not-exist" = false ∧
    (oriFlagLayerEnabled ⟨[], fun _ => []⟩ ⟨[], []⟩ "does-not-exist" =
       ⟨.errorNotFound, ⟨[], []⟩, ["does-not-exist"], []⟩ ∧
     (oriFlagLayerEnabled ⟨[], fun _ => []⟩ ⟨[], []⟩
        "does-not-exist").state.enabledLayers.length =
       (⟨[], []⟩ : InstanceCreateInfo).enabledLayers.length) :=
  ⟨rfl, C3_requestLayer_unavailable_appends_nothing ⟨[], fun _ => []⟩ ⟨[], []⟩
    "does-not-exist" rfl⟩

/-- C4: `oriFlagInstanceExtensionEnabled` consults no Availability Oracle
(it takes no `VulkanEnv` at all), appends the extension to the accumulator's
requested-extension list - growing it by exactly one while leaving the layer
list untouched - and returns OK, for every state and name. -/
theorem C4_requestExtension_always_appends_ok (s : InstanceCreateInfo)
    (extension : Name) :
    oriFlagInstanceExtensionEnabled s extension =
      ⟨.ok, ⟨s.enabledLayers, s.enabledExtensions ++ [extension]⟩, [], []⟩ ∧
    (oriFlagInstanceExtensionEnabled s extension).state.enabledExtensions.length =
      s.enabledExtensions.length + 1 := by
  obtain ⟨L, E⟩ := s
  constructor
  · rfl
  · simp [oriFlagInstanceExtensionEnabled]

/-- C5 counterexample: the resolver is not idempotent.  With no layers, both
requested extensions unavailable and no intervening request calls, the first
prune pass leaves "VK_EXT_b" behind (the loop index skips it after the
in-place removal of "VK_EXT_a") and the second pass removes it, reporting a
removal - the claim requires the second call to remove nothing. -/
theorem C5_second_resolve_can_still_remove :
    (oriPruneInstanceExtensions ⟨[], fun _ => []⟩
       (oriPruneInstanceExtensions ⟨[], fun _ => []⟩
          ⟨[], ["VK_EXT_a", "VK_EXT_b"]⟩).state).removedAny = true := by
  have h1 : oriPruneInstanceExtensions ⟨[], fun _ => []⟩
      ⟨[], ["VK_EXT_a", "VK_EXT_b"]⟩ =
        ⟨⟨[], ["VK_EXT_b"]⟩, true, ["VK_EXT_a"]⟩ := by
    rw [oriPrune_eq_pruneGo]
    rw [pruneGo_drop_skip ⟨[], fun _ => []⟩ [] "VK_EXT_a" "VK_EXT_b" [] rfl]
    rw [pruneGo_nil]
  rw [h1]
  rw [oriPrune_eq_pruneGo]
  rw [pruneGo_drop_last ⟨[], fun _ => []⟩ [] "VK_EXT_b" rfl]

/-- C5 amended: the second resolver call is a no-op whenever the first call
removed nothing (in which case the first call also left the accumulator
unchanged and warned about nothing); when the first call did remove
something, a second call may remove more (see the counterexample). -/
theorem C5_resolve_noop_when_nothing_removed (env : VulkanEnv)
    (s : InstanceCreateInfo)
    (h : (oriPruneInstanceExtensions env s).removedAny = false) :
    oriPruneInstanceExtensions env s = ⟨s, false, []⟩ ∧
    oriPruneInstanceExtensions env
      (oriPruneInstanceExtensions env s).state = ⟨s, false, []⟩ := by
  rw [oriPrune_eq_pruneGo] at h
  simp only at h
  have hg := pruneGo_removed_false env s.enabledLayers s.enabledExtensions h
  have h1 : oriPruneInstanceExtensions env s = ⟨s, false, []⟩ := by
    rw [oriPrune_eq_pruneGo, hg]
  exact ⟨h1, by rw [h1]; exact h1⟩

/-- Witness for C5 at a concrete input: with an empty accumulator the first
call removes nothing, and the second call is then a no-op. -/
theorem C5_witness :
    (oriPruneInstanceExtensions ⟨[], fun _ => []⟩ ⟨[], []⟩).removedAny = false ∧
    (oriPruneInstanceExtensions ⟨[], fun _ => []⟩ ⟨[], []⟩ =
       ⟨⟨[], []⟩, false, []⟩ ∧
     oriPruneInstanceExtensions ⟨[], fun _ => []⟩
       (oriPruneInstanceExtensions ⟨[], fun _ => []⟩ ⟨[], []⟩).state =
       ⟨⟨[], []⟩, false, []⟩) := by
  have h : (oriPruneInstanceExtensions ⟨[], fun _ => []⟩
      ⟨[], []⟩).removedAny = false := by
    rw [oriPrune_eq_pruneGo]
    rfl
  exact ⟨h, C5_resolve_noop_when_nothing_removed ⟨[], fun _ => []⟩ ⟨[], []⟩ h⟩

/-- C6 counterexample: with the severity mask wholly empty (no severity
enabled, so ERROR is not in the mask), an ERROR emission through `_oriError`
is not a no-op: the message is formatted and the sink callback is invoked
anyway, contradicting the claim for the ERROR severity. -/
theorem C6_error_emission_ignores_mask :
    (0 : Nat) &&& ORION_DEBUG_SEVERITY_ERROR_BIT ≠
      ORION_DEBUG_SEVERITY_ERROR_BIT ∧
    (_oriError 0 _oriErrorCode_t.ORIERR_NULL_POINTER none).formatted = true ∧
    (_oriError 0 _oriErrorCode_t.ORIERR_NULL_POINTER none).sinkCalls ≠ [] := by
  refine ⟨by decide, rfl, by decide⟩

/-- C6 amended: the no-op guarantee holds for the severity-checked emission
paths - `_ori_ThrowError` never invokes the sink for a severity not in the
mask (any severity), and the VERBOSE/NOTIFICATION/WARNING helpers of the
debug.c revision skip both formatting and the sink when their severity is
not in the mask; the helpers.h `_ori_Warning` skips formatting only when the
mask is wholly empty.  ERROR and FATAL emissions through `_oriError` /
`_oriFatalError`, however, always format and always invoke the sink,
regardless of the mask. -/
theorem C6_gating_except_error_fatal (mask severity code : Nat) (name : Name)
    (message : String) (id : _oriErrorCode_t) (extra : Option String)
    (h : mask &&& severity ≠ severity) :
    _ori_ThrowError mask name code message severity = [] ∧
    (mask &&& ORION_DEBUG_SEVERITY_WARNING_BIT ≠
        ORION_DEBUG_SEVERITY_WARNING_BIT →
      _oriWarning mask message = ⟨false, []⟩) ∧
    (mask &&& ORION_DEBUG_SEVERITY_VERBOSE_BIT ≠
        ORION_DEBUG_SEVERITY_VERBOSE_BIT →
      _oriLog mask message = ⟨false, []⟩) ∧
    (mask &&& ORION_DEBUG_SEVERITY_NOTIF_BIT ≠
        ORION_DEBUG_SEVERITY_NOTIF_BIT →
      _oriNotification mask message = ⟨false, []⟩) ∧
    (mask = 0 → _ori_Warning mask message = ⟨false, []⟩) ∧
    (_oriError mask id extra).formatted = true ∧
    (_oriError mask id extra).sinkCalls.length = 1 ∧
    (_oriFatalError mask id extra).sinkCalls.length = 1 := by
  refine ⟨?_, ?_, ?_, ?_, ?_, rfl, rfl, rfl⟩
  · simp [_ori_ThrowError, h]
  · intro hw
    simp [_oriWarning, hw]
  · intro hv
    simp [_oriLog, hv]
  · intro hn
    simp [_oriNotification, hn]
  · intro h0
    simp [_ori_Warning, h0]

/-- Witness for C6 amended at the wholly empty mask and WARNING severity. -/
theorem C6_witness :
    (0 : Nat) &&& ORION_DEBUG_SEVERITY_WARNING_BIT ≠
      ORION_DEBUG_SEVERITY_WARNING_BIT ∧
    (_ori_ThrowError 0 "" 0 "m" ORION_DEBUG_SEVERITY_WARNING_BIT = [] ∧
     ((0 : Nat) &&& ORION_DEBUG_SEVERITY_WARNING_BIT ≠
         ORION_DEBUG_SEVERITY_WARNING_BIT →
       _oriWarning 0 "m" = ⟨false, []⟩) ∧
     ((0 : Nat) &&& ORION_DEBUG_SEVERITY_VERBOSE_BIT ≠
         ORION_DEBUG_SEVERITY_VERBOSE_BIT →
       _oriLog 0 "m" = ⟨false, []⟩) ∧
     ((0 : Nat) &&& ORION_DEBUG_SEVERITY_NOTIF_BIT ≠
         ORION_DEBUG_SEVERITY_NOTIF_BIT →
       _oriNotification 0 "m" = ⟨false, []⟩) ∧
     ((0 : Nat) = 0 → _ori_Warning 0 "m" = ⟨false, []⟩) ∧
     (_oriError 0 _oriErrorCode_t.ORIERR_NOT_INIT none).formatted = true ∧
     (_oriError 0 _oriErrorCode_t.ORIERR_NOT_INIT none).sinkCalls.length = 1 ∧
     (_oriFatalError 0 _oriErrorCode_t.ORIERR_NOT_INIT
        none).sinkCalls.length = 1) :=
  ⟨by decide, C6_gating_except_error_fatal 0 ORION_DEBUG_SEVERITY_WARNING_BIT
    0 "" "m" _oriErrorCode_t.ORIERR_NOT_INIT none (by decide)⟩

/-- C7: evaluation of the append operation with the allocation outcome made
explicit.  On success the list grows by exactly one with all elements
preserved and the value in the last slot, as the claim states.  On
allocation failure, however, the stored length is left incremented and the
array pointer is NULL (the list is not left as it was), and no MEMORY error
kit is raised - the helpers.h macro only printfs; the lib/extension.c
revision of the layer append does throw ORERR_MEMORY_ERROR but likewise
leaves the count incremented and the array pointer NULL. -/
theorem C7_append_alloc_failure_not_atomic :
    _ori_AppendOntoDArray true ["a"] "b" = ⟨some ["a", "b"], 2, false, []⟩ ∧
    _ori_AppendOntoDArray false ["a"] "b" = ⟨none, 2, true, []⟩ ∧
    oriFlagLayerEnabledRealloc ⟨["VK_LAYER_x"], fun _ => []⟩ false []
      "VK_LAYER_x" = ⟨.memoryError, none, 1, [], [ORERR_MEMORY_ERROR]⟩ := by
  refine ⟨rfl, rfl, ?_⟩
  rfl

/-- C8: evaluation of `_ori_RemoveFromDArray` at the failing input.  The
source's bound check is `index <= len`, so for a list of length 1 the
out-of-bounds index 1 is treated as in-bounds: a zero is written one slot
past the end and the stored length is decremented to 0 - not a no-op.
Indices strictly greater than the length are no-ops, and in-bounds removal
shifts left and shrinks by one, as the claim states. -/
theorem C8_removeAt_length_index_not_noop :
    _ori_RemoveFromDArray ["a"] 1 = [] ∧
    _ori_RemoveFromDArray ["a"] 2 = ["a"] ∧
    _ori_RemoveFromDArray ["a", "b", "c"] 1 = ["a", "c"] := by
  decide

/-- C9: each of the three public capability operations, called with a NULL
state, throws the ORERR_NULL_POINTER error kit and returns its error value
(the NULL_POINTER status, or false for the pruner) without producing any
accumulator: no capability list is read or written. -/
theorem C9_null_state_guard (env : VulkanEnv) (layer extension : Name) :
    oriFlagLayerEnabledNullable env none layer =
      (.errorNullPointer, none, [], [ORERR_NULL_POINTER]) ∧
    oriFlagInstanceExtensionEnabledNullable none extension =
      (.errorNullPointer, none, [], [ORERR_NULL_POINTER]) ∧
    oriPruneInstanceExtensionsNullable env none =
      (false, none, [], [ORERR_NULL_POINTER]) :=
  ⟨rfl, rfl, rfl⟩

/-- C10: for every native severity and type and every callback payload, the
debug-messenger relay delivers exactly one call to the library error
callback, under the name VULKAN_DEBUG_MESSENGER with code 0x03 (at ERROR
severity), and returns VK_FALSE, so the triggering native call is never
aborted by the relay. -/
theorem C10_relay_forwards_and_returns_vk_false (severity typ : Nat)
    (callbackdata : VkDebugUtilsMessengerCallbackData) :
    (_ori_VulkanDebugMessengerCallback severity typ callbackdata).call.name =
      "VULKAN_DEBUG_MESSENGER" ∧
    (_ori_VulkanDebugMessengerCallback severity typ callbackdata).call.code =
      0x03 ∧
    (_ori_VulkanDebugMessengerCallback severity typ
       callbackdata).call.severity = ORION_ERROR_SEVERITY_ERROR_BIT ∧
    (_ori_VulkanDebugMessengerCallback severity typ
       callbackdata).returnValue = false := by
  unfold _ori_VulkanDebugMessengerCallback
  split
  · exact ⟨rfl, rfl, rfl, rfl⟩
  · exact ⟨rfl, rfl, rfl, rfl⟩

end OrionVK
